import Mathlib

/-
Verification of the Sudoku game engine in src/main.rs (yung00se/Sudoku_app).

The embedding models the game state (struct Sudoku), puzzle loading
(Puzzle::new, Sudoku::get_puzzle), the per-frame phase dispatch at the top
of Sudoku::update, and the three input handlers inside the Playing branch
of Sudoku::update (cell click, digit key, backspace key) as one discrete
step per input event.  Rust panics (out-of-bounds array indexing, .unwrap,
.expect) are modelled by Option: a function returns none exactly where the
source panics.  std::time Instants and Durations are modelled as Nat
timestamps passed in explicitly.
-/

/-- Struct Puzzle (main.rs lines 11-15): one puzzle/solution pair, both
flat 81-character strings in the on-disk format. -/
structure Puzzle where
  puzzle : String
  solution : String
deriving DecidableEq

/-- Outcome of Puzzle::new (main.rs lines 49-82): either the process panics
(unwrap on a failed file read, or expect on a failed deserialization), or a
Puzzle value is returned. -/
inductive PuzzleNewResult where
  | panic
  | ok (p : Puzzle)
deriving DecidableEq

/-- Model of rand SliceRandom::choose on the puzzles vector (main.rs line 68):
returns none exactly when the slice is empty, otherwise some element; the
random draw is modelled by the explicit index argument taken modulo the
length. -/
def chooseModel (ps : List Puzzle) (idx : Nat) : Option Puzzle :=
  if ps.isEmpty then none else ps[idx % ps.length]?

/-- Puzzle::new (main.rs lines 51-81).  The file system and JSON parser are
modelled by the readParse argument: none stands for fs::read_to_string
failing (the source calls .unwrap(), a panic), some none stands for
serde_json::from_str failing (the source calls .expect(..), a panic), and
some (some ps) is the successfully parsed puzzles vector.  When choose
returns None (empty vector) the source prints "Failed to get puzzle" to
stdout and returns the initial empty strings (lines 53-54, 72-74). -/
def Puzzle.new (readParse : Option (Option (List Puzzle))) (idx : Nat) : PuzzleNewResult :=
  match readParse with
  | none => PuzzleNewResult.panic
  | some none => PuzzleNewResult.panic
  | some (some ps) =>
    match chooseModel ps idx with
    | some rp => PuzzleNewResult.ok rp
    | none => PuzzleNewResult.ok { puzzle := "", solution := "" }

/-- Struct Sudoku (main.rs lines 35-47).  The three 9x9 char grids are
total functions on Fin 9; selected is the raw usize pair with 10 as the
"nothing selected" sentinel, exactly as in the source. -/
structure Sudoku where
  username : String
  user_id : Int
  starting_grid : Fin 9 → Fin 9 → Char
  player_grid : Fin 9 → Fin 9 → Char
  solution_grid : Fin 9 → Fin 9 → Char
  selected : Nat × Nat
  difficulty : String
  strikes : Nat
  time_elapsed : Nat
  timer_start : Option Nat
  game_over : Bool
deriving DecidableEq

/-- Sudoku::new (main.rs lines 326-340): all grids filled with '.', selected
at the [10, 10] sentinel, strikes 0, zero elapsed time, no timer, not over. -/
def Sudoku.new (username : String) (user_id : Int) : Sudoku :=
  { username := username
    user_id := user_id
    starting_grid := fun _ _ => '.'
    player_grid := fun _ _ => '.'
    solution_grid := fun _ _ => '.'
    selected := (10, 10)
    difficulty := ""
    strikes := 0
    time_elapsed := 0
    timer_start := none
    game_over := false }

/-- Session phase as dispatched at the top of Sudoku::update
(main.rs lines 90-104): difficulty empty -> difficulty screen; else
strikes >= 3 -> lose screen; else player_grid == solution_grid -> win
screen; else the game is running.  The order of the tests is the order of
the if/else chain in the source. -/
inductive Phase where
  | choosingDifficulty
  | lost
  | won
  | playing
deriving DecidableEq

def phase (s : Sudoku) : Phase :=
  if s.difficulty = "" then Phase.choosingDifficulty
  else if 3 ≤ s.strikes then Phase.lost
  else if s.player_grid = s.solution_grid then Phase.won
  else Phase.playing

/-- Write one cell of a 9x9 grid (a Rust grid[r][c] = v assignment with
indices already known to be in bounds). -/
def setCell (g : Fin 9 → Fin 9 → Char) (r c : Fin 9) (v : Char) : Fin 9 → Fin 9 → Char :=
  fun r' c' => if r' = r ∧ c' = c then v else g r' c'

/-- Safe read of grid[r][c] at raw usize indices: none exactly when the
source's indexing would panic (index out of the 0..8 range). -/
def gridGet (g : Fin 9 → Fin 9 → Char) (r c : Nat) : Option Char :=
  if hr : r < 9 then
    if hc : c < 9 then some (g ⟨r, hr⟩ ⟨c, hc⟩) else none
  else none

/-- Digit-key handler in the Playing branch of Sudoku::update (main.rs
lines 292-308), for one pressed digit key whose character is d (the source
only generates '1'..'9' from the valid_keys array).  The source condition is
selected_row != 10 && selected_col != 10 &&
starting_grid[selected_row][selected_col] == '.'; the indexing panics
(none) if a coordinate is neither 10 nor in 0..8.  On a write, the entered
char lands in player_grid and, when it differs from the solution at that
cell (line 304 compares solution_grid against the freshly written
player_grid), strikes (a u8) is incremented. -/
def Sudoku.enterDigit (d : Char) (s : Sudoku) : Option Sudoku :=
  if s.selected.1 = 10 ∨ s.selected.2 = 10 then some s
  else if hr : s.selected.1 < 9 then
    if hc : s.selected.2 < 9 then
      let r : Fin 9 := ⟨s.selected.1, hr⟩
      let c : Fin 9 := ⟨s.selected.2, hc⟩
      if s.starting_grid r c = '.' then
        let player' := setCell s.player_grid r c d
        if s.solution_grid r c ≠ player' r c then
          some { s with player_grid := player', strikes := (s.strikes + 1) % 256 }
        else
          some { s with player_grid := player' }
      else some s
    else none
  else none

/-- Backspace handler in the Playing branch of Sudoku::update (main.rs
lines 311-313).  The source is the single unguarded statement
player_grid[selected_row][selected_col] = '.'; there is no selection
check and no clue-cell check, so with the [10, 10] "no selection" sentinel
the indexing panics (none), and with a clue cell selected the clue is
erased from player_grid. -/
def Sudoku.backspace (s : Sudoku) : Option Sudoku :=
  if hr : s.selected.1 < 9 then
    if hc : s.selected.2 < 9 then
      some { s with player_grid := setCell s.player_grid ⟨s.selected.1, hr⟩ ⟨s.selected.2, hc⟩ '.' }
    else none
  else none

/-- Grid-population loop of Sudoku::get_puzzle (main.rs lines 350-374):
for each row and col, flat index row * 9 + col; when the index is inside
the char vector the cell is overwritten, otherwise (if let Some .. else)
the cell keeps its previous value.  starting_grid and player_grid are both
filled from the puzzle string, solution_grid from the solution string. -/
def Sudoku.loadGrids (s : Sudoku) (puzzle solution : List Char) : Sudoku :=
  { s with
    starting_grid := fun r c => puzzle.getD (r.val * 9 + c.val) (s.starting_grid r c)
    player_grid := fun r c => puzzle.getD (r.val * 9 + c.val) (s.player_grid r c)
    solution_grid := fun r c => solution.getD (r.val * 9 + c.val) (s.solution_grid r c) }

/-- Sudoku::get_puzzle (main.rs lines 343-375): calls Puzzle::new for the
current difficulty and stores the resulting pair into the grids; none
propagates a panic from Puzzle::new. -/
def Sudoku.get_puzzle (s : Sudoku) (readParse : Option (Option (List Puzzle))) (idx : Nat) : Option Sudoku :=
  match Puzzle.new readParse idx with
  | PuzzleNewResult.panic => none
  | PuzzleNewResult.ok p => some (s.loadGrids p.puzzle.toList p.solution.toList)

/-- Discrete input events handled by the Playing branch of Sudoku::update:
a click on the cell at (r, c) (the grid loop only creates buttons for rows
and columns 0..8, main.rs lines 185-186, 242-245, 271-274), a digit key,
and the backspace key. -/
inductive Op where
  | enter (d : Char)
  | clear
  | select (r c : Fin 9)

/-- One frame of Sudoku::update carrying one input event: the input
handlers run only inside the Playing branch of the if/else chain (the
difficulty screen, lose screen and win screen branches never touch the
grids, the selection or the strike counter). -/
def step (s : Sudoku) (op : Op) : Option Sudoku :=
  if phase s = Phase.playing then
    match op with
    | Op.enter d => s.enterDigit d
    | Op.clear => s.backspace
    | Op.select r c => some { s with selected := (r.val, c.val) }
  else some s

/-- Run a sequence of input events; none as soon as one frame panics. -/
def run (s : Sudoku) : List Op → Option Sudoku
  | [] => some s
  | op :: ops =>
    match step s op with
    | none => none
    | some s' => run s' ops

/-- One row of the concrete test solution. -/
def rowChars : List Char := "123456789".toList

/-- Concrete 81-character solution string (nine copies of 123456789; the
engine never validates Sudoku rules, only per-cell equality). -/
def testSolution : List Char :=
  rowChars ++ rowChars ++ rowChars ++ rowChars ++ rowChars ++
    rowChars ++ rowChars ++ rowChars ++ rowChars

/-- Concrete 81-character puzzle string: the solution with cell (0,0)
blanked, so (0,0) is the one empty cell and every other cell is a clue. -/
def testPuzzle : List Char :=
  ('.' :: "23456789".toList) ++ rowChars ++ rowChars ++ rowChars ++ rowChars ++
    rowChars ++ rowChars ++ rowChars ++ rowChars

/-- Concrete mid-game state: a fresh Sudoku with difficulty set (as the
difficulty screen does on a button click, main.rs lines 399-417) and the
test puzzle loaded; no cell selected yet, no strikes. -/
def baseState : Sudoku :=
  Sudoku.loadGrids { Sudoku.new "John" 2 with difficulty := "Test" } testPuzzle testSolution

/-- Concrete state for exercising c1_terminal_transitions: the loaded test
game after a click on cell (0, 0). -/
def c1State : Sudoku := { baseState with selected := (0, 0) }

/-- Strikes added by one digit-key event ignoring the phase gate: 1 exactly
when the write happens (selection not the sentinel, in range, cell not a
clue) and the written digit differs from the solution, mirroring the
branch structure of Sudoku.enterDigit. -/
def enterStrike (s : Sudoku) (d : Char) : Nat :=
  if s.selected.1 = 10 ∨ s.selected.2 = 10 then 0
  else if hr : s.selected.1 < 9 then
    if hc : s.selected.2 < 9 then
      if s.starting_grid ⟨s.selected.1, hr⟩ ⟨s.selected.2, hc⟩ = '.' ∧
          s.solution_grid ⟨s.selected.1, hr⟩ ⟨s.selected.2, hc⟩ ≠ d then 1
      else 0
    else 0
  else 0

/-- Strikes added by one input event: only a digit key handled in the
Playing phase can add one. -/
def strikeContribution (s : Sudoku) : Op → Nat
  | Op.enter d => if phase s = Phase.playing then enterStrike s d else 0
  | _ => 0

/-- Total strikes added along an event sequence (0 past a panic, where run
yields none anyway). -/
def countStrikes (s : Sudoku) : List Op → Nat
  | [] => 0
  | op :: ops =>
    match step s op with
    | none => 0
    | some s' => strikeContribution s op + countStrikes s' ops

/-- Per-event count as claim C3 words it: a digit-entry call made during
the Playing phase whose digit disagrees with the solution at the
then-selected cell, with no regard to the clue-cell test. -/
def claimDisagree (s : Sudoku) : Op → Nat
  | Op.enter d =>
    if phase s = Phase.playing then
      if hr : s.selected.1 < 9 then
        if hc : s.selected.2 < 9 then
          if s.solution_grid ⟨s.selected.1, hr⟩ ⟨s.selected.2, hc⟩ ≠ d then 1 else 0
        else 0
      else 0
    else 0
  | _ => 0

/-- Total of claimDisagree along an event sequence. -/
def claimDisagreeCount (s : Sudoku) : List Op → Nat
  | [] => 0
  | op :: ops =>
    match step s op with
    | none => 0
    | some s' => claimDisagree s op + claimDisagreeCount s' ops

/-- Read all 81 cells of a grid back in row-major order, mapping flat index
i to row i / 9 and column i % 9 (the inverse of the index map used by
Sudoku::get_puzzle); the getD default is never used since both coordinates
are always in range. -/
def readBack (g : Fin 9 → Fin 9 → Char) : List Char :=
  (List.range 81).map (fun i => (gridGet g (i / 9) (i % 9)).getD ' ')

/-- State produced by get_puzzle on an empty puzzle collection: the empty
pair loaded over a fresh Sudoku whose difficulty was just set. -/
def c10State : Sudoku :=
  Sudoku.loadGrids { Sudoku.new "John" 2 with difficulty := "Beginner" } "".toList "".toList

/-- Cell-match count of Sudoku::lose_screen (main.rs lines 430-437): the
number of the 81 positions where player_grid equals solution_grid. -/
def correctCount (s : Sudoku) : Nat :=
  (Finset.univ.filter
    (fun rc : Fin 9 × Fin 9 => s.player_grid rc.1 rc.2 = s.solution_grid rc.1 rc.2)).card

/-- Largest exponent e in [-10, 9] with 2 to the e at most a / b, encoded
as a fold over k = e + 10; the comparison b * 2 ^ k at most a * 2 ^ 10 is
the integer form of 2 ^ (k - 10) at most a / b.  This is the binade search
for rounding a positive rational to binary32. -/
def floorExp (a b : Nat) : Int :=
  (List.range 20).foldl
    (fun (acc : Int) (k : Nat) => if b * 2 ^ k ≤ a * 2 ^ 10 then (k : Int) - 10 else acc) (-10)

/-- Round a / b to the nearest integer with ties to even (the IEEE-754
default rounding used by Rust f32 arithmetic). -/
def rne (a b : Nat) : Nat :=
  let q := a / b
  let r := a % b
  if 2 * r < b then q
  else if b < 2 * r then q + 1
  else if q % 2 = 0 then q else q + 1

/-- Round the nonnegative rational a / b to the nearest IEEE-754 binary32
value, returned as an exact dyadic fraction: the 24-bit significand is
rne (a * 2 ^ (23 - e)) b for the binade exponent e.  Every value in the
lose-screen computation lies in [1/81, 101), normal and far from overflow
and underflow, so the bounded exponent search range is exact there. -/
def rnF32 (a b : Nat) : Nat × Nat :=
  if a = 0 then (0, 1)
  else
    let e := floorExp a b
    let shift := (23 - e).toNat
    (rne (a * 2 ^ shift) b, 2 ^ shift)

/-- Percentage computation of Sudoku::lose_screen (main.rs lines 438-441):
count as f32 (exact, counts are at most 81 < 2 ^ 24), divided by 81.0 (one
f32 rounding), multiplied by 100.0 (another f32 rounding), then
f32::round — half away from zero, which for a nonnegative dyadic p / q is
floor (p / q + 1 / 2) = (2 p + q) / (2 q) — and cast to i32 (exact, the
value is a small integer). -/
def f32Score (count : Nat) : Nat :=
  let frac := rnF32 count 81
  let percentage := rnF32 (frac.1 * 100) frac.2
  (2 * percentage.1 + percentage.2) / (2 * percentage.2)

/-- Score reported on the lose screen. -/
def Sudoku.lose_screen (s : Sudoku) : Nat := f32Score (correctCount s)

/-- Concrete lost state for exercising c7_lose_score: the loaded test game
after three strikes. -/
def c7State : Sudoku := { baseState with strikes := 3 }

/-- Elapsed play time as computed at the top of the Playing branch
(main.rs lines 109-122): accumulated time_elapsed plus the time since
timer_start when the timer is running (checked_add cannot overflow in the
Nat model), zero when the timer was never started (the branch then also
initializes timer_start, a mutation irrelevant to the clock value). -/
def playingElapsed (now : Nat) (s : Sudoku) : Nat :=
  match s.timer_start with
  | some t => s.time_elapsed + (now - t)
  | none => 0

/-- Sudoku::win_screen (main.rs lines 453-472): on the first call after
the win (game_over still false) the current timer reading is captured into
time_elapsed and game_over is set, so the block runs only once; every call
displays time_elapsed.  Returns the updated state and the displayed
duration; now is the current instant. -/
def Sudoku.win_screen (now : Nat) (s : Sudoku) : Sudoku × Nat :=
  let s' :=
    if s.game_over then s
    else
      { s with
        time_elapsed :=
          match s.timer_start with
          | some t => now - t
          | none => s.time_elapsed
        game_over := true }
  (s', s'.time_elapsed)

/-- Checkerboard condition, written twice verbatim in the source for
non-empty and empty cells (main.rs lines 220-223 and 251-254): rows 0-2
with columns 3-5, rows 6-8 with columns 3-5, rows 3-5 with columns 0-2,
rows 3-5 with columns 6-8. -/
def checkerboard (row col : Nat) : Prop :=
  (row ≤ 2 ∧ 3 ≤ col ∧ col ≤ 5) ∨
  (6 ≤ row ∧ row ≤ 8 ∧ 3 ≤ col ∧ col ≤ 5) ∨
  (3 ≤ row ∧ row ≤ 5 ∧ col ≤ 2) ∨
  (3 ≤ row ∧ row ≤ 5 ∧ 6 ≤ col ∧ col ≤ 8)

instance (row col : Nat) : Decidable (checkerboard row col) := by
  unfold checkerboard
  infer_instance

/-- Value of selected_num (main.rs lines 126-135): the player grid at the
selected cell when both coordinates are under the sentinel bound 10, '.'
otherwise.  A coordinate equal to 9 would panic in the source, but the
only out-of-grid value ever stored is the sentinel 10, so the getD default
is never the read value in reachable states. -/
def selectedNum (s : Sudoku) : Char :=
  if s.selected.1 < 10 ∧ s.selected.2 < 10 then
    (gridGet s.player_grid s.selected.1 s.selected.2).getD '.'
  else '.'

/-- Same-value highlight condition for a non-empty cell (main.rs lines
210-212): a cell is selected (coordinates under 10) and this cell's value
equals selected_num. -/
def sameValueHighlight (s : Sudoku) (row col : Fin 9) : Prop :=
  s.selected.1 < 10 ∧ s.selected.2 < 10 ∧ s.player_grid row col = selectedNum s

instance (s : Sudoku) (row col : Fin 9) : Decidable (sameValueHighlight s row col) := by
  unfold sameValueHighlight
  infer_instance

/-- Button fill for a non-empty cell (main.rs lines 210-231): the
same-value highlight rgb(200, 200, 255) takes precedence, then the
checkerboard white rgb(255, 255, 255), otherwise the default fill. -/
def nonEmptyCellFill (s : Sudoku) (row col : Fin 9) : Option (Nat × Nat × Nat) :=
  if sameValueHighlight s row col then some (200, 200, 255)
  else if checkerboard row.val col.val then some (255, 255, 255)
  else none

/-- Button fill for an empty cell (main.rs lines 251-262): checkerboard
white or the default fill. -/
def emptyCellFill (row col : Fin 9) : Option (Nat × Nat × Nat) :=
  if checkerboard row.val col.val then some (255, 255, 255) else none

/-- Four-box predicate in the spec's words, for the refinement comparison:
the box-row or box-column index is the middle one, excluding the center
box itself. -/
def middleEdgeBox (row col : Nat) : Prop :=
  (row / 3 = 1 ∨ col / 3 = 1) ∧ ¬(row / 3 = 1 ∧ col / 3 = 1)

instance (row col : Nat) : Decidable (middleEdgeBox row col) := by
  unfold middleEdgeBox
  infer_instance

/-- Concrete state for the C9 counterexample: the loaded test game with
cell (0, 3) selected; that cell holds '4'. -/
def c9State : Sudoku := { baseState with selected := (0, 3) }

example : testPuzzle.length = 81 := by decide
example : testSolution.length = 81 := by decide
example : phase baseState = Phase.playing := by decide
example : step baseState Op.clear = none := by decide
example : (run baseState [Op.select 0 1, Op.clear]).map (fun t => t.player_grid 0 1) = some '.' := by decide

lemma setCell_self (g : Fin 9 → Fin 9 → Char) (r c : Fin 9) (v : Char) :
    setCell g r c v r c = v := by
  simp [setCell]

lemma phase_eq_playing_iff (s : Sudoku) :
    phase s = Phase.playing ↔
      s.difficulty ≠ "" ∧ s.strikes < 3 ∧ s.player_grid ≠ s.solution_grid := by
  unfold phase
  split_ifs with h1 h2 h3 <;> simp_all

lemma phase_eq_lost_iff (s : Sudoku) :
    phase s = Phase.lost ↔ s.difficulty ≠ "" ∧ 3 ≤ s.strikes := by
  unfold phase
  split_ifs with h1 h2 h3 <;> simp_all

lemma phase_eq_won_iff (s : Sudoku) :
    phase s = Phase.won ↔
      s.difficulty ≠ "" ∧ s.strikes < 3 ∧ s.player_grid = s.solution_grid := by
  unfold phase
  split_ifs with h1 h2 h3 <;> simp_all

lemma backspace_fields (s s' : Sudoku) (h : s.backspace = some s') :
    s'.difficulty = s.difficulty ∧ s'.strikes = s.strikes := by
  rw [Sudoku.backspace] at h
  split at h
  · split at h
    · injection h with h2
      subst h2
      exact ⟨rfl, rfl⟩
    · exact absurd h (by simp)
  · exact absurd h (by simp)

lemma enterDigit_key (d : Char) (s s' : Sudoku) (hs3 : s.strikes < 3)
    (h : s.enterDigit d = some s') :
    s'.difficulty = s.difficulty ∧ (s'.strikes < 3 ∨ s'.player_grid ≠ s'.solution_grid) := by
  simp only [Sudoku.enterDigit] at h
  split at h
  · injection h with h2
    subst h2
    exact ⟨rfl, Or.inl hs3⟩
  · split at h
    · split at h
      · split at h
        · split at h
          · rename_i hwrong
            injection h with h2
            subst h2
            refine ⟨rfl, Or.inr fun heq => ?_⟩
            exact hwrong (by simpa using (congrFun (congrFun heq _) _).symm)
          · injection h with h2
            subst h2
            exact ⟨rfl, Or.inl hs3⟩
        · injection h with h2
          subst h2
          exact ⟨rfl, Or.inl hs3⟩
      · exact absurd h (by simp)
    · exact absurd h (by simp)

/-- C1: from a session in the Playing phase, one input event transitions to
Lost exactly when the strike counter has reached 3 and to Won exactly when
the player grid equals the solution grid on all 81 cells; the strike test
precedes the completeness test in the phase dispatch, and no single
transition can make both terminal conditions hold at once. -/
theorem c1_terminal_transitions (s : Sudoku) (op : Op) (s' : Sudoku)
    (hp : phase s = Phase.playing) (h : step s op = some s') :
    (phase s' = Phase.lost ↔ 3 ≤ s'.strikes) ∧
    (phase s' = Phase.won ↔ s'.player_grid = s'.solution_grid) ∧
    ¬(3 ≤ s'.strikes ∧ s'.player_grid = s'.solution_grid) := by
  obtain ⟨hd, hs3, _⟩ := (phase_eq_playing_iff s).mp hp
  have hkey : s'.difficulty = s.difficulty ∧ (s'.strikes < 3 ∨ s'.player_grid ≠ s'.solution_grid) := by
    cases op with
    | enter d =>
      have h' : (if phase s = Phase.playing then s.enterDigit d else some s) = some s' := h
      rw [if_pos hp] at h'
      exact enterDigit_key d s s' hs3 h'
    | clear =>
      have h' : (if phase s = Phase.playing then s.backspace else some s) = some s' := h
      rw [if_pos hp] at h'
      obtain ⟨h1, h2⟩ := backspace_fields s s' h'
      exact ⟨h1, Or.inl (h2 ▸ hs3)⟩
    | select r c =>
      have h' : (if phase s = Phase.playing then some { s with selected := (r.val, c.val) } else some s) = some s' := h
      rw [if_pos hp] at h'
      injection h' with h2
      subst h2
      exact ⟨rfl, Or.inl hs3⟩
  obtain ⟨hdiff, hor⟩ := hkey
  have hd' : s'.difficulty ≠ "" := by rw [hdiff]; exact hd
  refine ⟨?_, ?_, ?_⟩
  · rw [phase_eq_lost_iff]
    exact ⟨fun hx => hx.2, fun hx => ⟨hd', hx⟩⟩
  · rw [phase_eq_won_iff]
    refine ⟨fun hx => hx.2.2, fun he => ⟨hd', ?_, he⟩⟩
    exact hor.resolve_right fun hne' => hne' he
  · rintro ⟨h3, he⟩
    rcases hor with hlt | hne'
    · omega
    · exact hne' he

/-- Witness for C1 at a concrete input: selecting cell (0, 0) in the loaded
test game. -/
theorem c1_terminal_transitions_witness :
    (phase c1State = Phase.lost ↔ 3 ≤ c1State.strikes) ∧
    (phase c1State = Phase.won ↔ c1State.player_grid = c1State.solution_grid) ∧
    ¬(3 ≤ c1State.strikes ∧ c1State.player_grid = c1State.solution_grid) :=
  c1_terminal_transitions baseState (Op.select 0 0) c1State (by decide) (by decide)

/-- C2: code behaviour at the failing input.  Cell (0, 1) is a clue cell
(starting_grid holds '2'), yet after clicking it and pressing backspace the
player grid at (0, 1) is '.', no longer equal to the starting grid: the
backspace handler (main.rs lines 311-313) has no clue-cell guard, so a clue
cell does not stay equal to the starting grid under clear-cell operations. -/
theorem c2_backspace_erases_clue :
    baseState.starting_grid 0 1 = '2' ∧ baseState.starting_grid 0 1 ≠ '.' ∧
    (run baseState [Op.select 0 1, Op.clear]).map (fun t => t.player_grid 0 1) = some '.' := by
  decide

/-- C4: code behaviour at the failing input.  In the freshly loaded Playing
state nothing is selected (selected is the [10, 10] sentinel), and pressing
backspace panics: the handler (main.rs lines 311-313) indexes
player_grid[10][10] with no selection check, so the clear-with-no-selection
policy no-op instead aborts the session. -/
theorem c4_backspace_no_selection_panics :
    baseState.selected = (10, 10) ∧ phase baseState = Phase.playing ∧
    step baseState Op.clear = none := by
  decide

lemma enterDigit_strikes (d : Char) (s s' : Sudoku) (hs3 : s.strikes < 3)
    (h : s.enterDigit d = some s') :
    s'.strikes = s.strikes + enterStrike s d ∧ s'.strikes ≤ 3 := by
  simp only [Sudoku.enterDigit] at h
  rw [enterStrike]
  split at h
  · rename_i hsent
    rw [if_pos hsent]
    injection h with h2
    subst h2
    omega
  · rename_i hsent
    rw [if_neg hsent]
    split at h
    · rename_i hr
      rw [dif_pos hr]
      split at h
      · rename_i hc
        rw [dif_pos hc]
        split at h
        · rename_i hclue
          split at h
          · rename_i hwrong
            rw [setCell_self] at hwrong
            rw [if_pos ⟨hclue, hwrong⟩]
            injection h with h2
            subst h2
            show (s.strikes + 1) % 256 = s.strikes + 1 ∧ (s.strikes + 1) % 256 ≤ 3
            omega
          · rename_i hwrong
            rw [setCell_self] at hwrong
            rw [if_neg (fun hx => hwrong hx.2)]
            injection h with h2
            subst h2
            show s.strikes = s.strikes + 0 ∧ s.strikes ≤ 3
            omega
        · rename_i hclue
          rw [if_neg (fun hx => hclue hx.1)]
          injection h with h2
          subst h2
          omega
      · exact absurd h (by simp)
    · exact absurd h (by simp)

lemma step_strikes (s s' : Sudoku) (op : Op) (h3 : s.strikes ≤ 3)
    (h : step s op = some s') :
    s'.strikes = s.strikes + strikeContribution s op ∧ s'.strikes ≤ 3 := by
  by_cases hp : phase s = Phase.playing
  · cases op with
    | enter d =>
      have h' : (if phase s = Phase.playing then s.enterDigit d else some s) = some s' := h
      rw [if_pos hp] at h'
      have hs3 : s.strikes < 3 := ((phase_eq_playing_iff s).mp hp).2.1
      have hres := enterDigit_strikes d s s' hs3 h'
      simpa [strikeContribution, hp] using hres
    | clear =>
      have h' : (if phase s = Phase.playing then s.backspace else some s) = some s' := h
      rw [if_pos hp] at h'
      have hs := (backspace_fields s s' h').2
      simp [strikeContribution, hs]
      omega
    | select r c =>
      have h' : (if phase s = Phase.playing then some { s with selected := (r.val, c.val) } else some s) = some s' := h
      rw [if_pos hp] at h'
      injection h' with h2
      subst h2
      simp [strikeContribution]
      omega
  · have h' : s' = s := by
      cases op with
      | enter d =>
        have h' : (if phase s = Phase.playing then s.enterDigit d else some s) = some s' := h
        rw [if_neg hp] at h'
        injection h' with h2
        exact h2.symm
      | clear =>
        have h' : (if phase s = Phase.playing then s.backspace else some s) = some s' := h
        rw [if_neg hp] at h'
        injection h' with h2
        exact h2.symm
      | select r c =>
        have h' : (if phase s = Phase.playing then some { s with selected := (r.val, c.val) } else some s) = some s' := h
        rw [if_neg hp] at h'
        injection h' with h2
        exact h2.symm
    subst h'
    cases op <;> simp [strikeContribution, hp] <;> omega

/-- C3 counterexample: one digit-entry call made in the Playing phase whose
digit ('9') disagrees with the solution ('2') at the then-selected cell
(0, 1) leaves the strike counter at 0, because (0, 1) is a clue cell and
the handler rejects the edit before the comparison; the count the claim
prescribes for this sequence is 1, so the strike counter does not equal
the claimed count. -/
theorem c3_clue_attempt_counterexample :
    (run baseState [Op.select 0 1, Op.enter '9']).map (fun t => t.strikes) = some 0 ∧
    claimDisagreeCount baseState [Op.select 0 1, Op.enter '9'] = 1 := by
  decide

/-- C3 as amended: over any event sequence from a state with at most 3
strikes, the strike counter ends at its start value plus exactly the
number of digit-entry calls that were actually applied during the Playing
phase (selection not the sentinel and in range, selected cell not a clue)
and whose digit disagreed with the solution at the then-selected cell;
in particular the counter never decreases. -/
theorem c3_strike_count (s : Sudoku) (ops : List Op) (s' : Sudoku)
    (h3 : s.strikes ≤ 3) (h : run s ops = some s') :
    s'.strikes = s.strikes + countStrikes s ops ∧ s.strikes ≤ s'.strikes := by
  induction ops generalizing s with
  | nil =>
    injection h with h2
    subst h2
    simp [countStrikes]
  | cons op ops ih =>
    rw [run] at h
    cases hstep : step s op with
    | none => rw [hstep] at h; cases h
    | some s1 =>
      rw [hstep] at h
      obtain ⟨he, hle⟩ := step_strikes s s1 op h3 hstep
      obtain ⟨he2, hle2⟩ := ih s1 hle h
      have hc : countStrikes s (op :: ops) = strikeContribution s op + countStrikes s1 ops := by
        simp [countStrikes, hstep]
      omega

/-- Witness for C3 at a concrete input: in the loaded test game, clicking
the empty cell (0, 0) and entering '9' (the solution there is '1') adds
exactly one strike. -/
theorem c3_strike_count_witness :
    ((run baseState [Op.select 0 0, Op.enter '9']).getD baseState).strikes =
      baseState.strikes + countStrikes baseState [Op.select 0 0, Op.enter '9'] ∧
    baseState.strikes ≤ ((run baseState [Op.select 0 0, Op.enter '9']).getD baseState).strikes :=
  c3_strike_count baseState [Op.select 0 0, Op.enter '9']
    ((run baseState [Op.select 0 0, Op.enter '9']).getD baseState) (by decide) (by decide)

lemma readBack_loadGrid (l : List Char) (g : Fin 9 → Fin 9 → Char) (hl : l.length = 81) :
    readBack (fun r c => l.getD (r.val * 9 + c.val) (g r c)) = l := by
  apply List.ext_getElem
  · rw [readBack, List.length_map, List.length_range, hl]
  · intro i h1 h2
    have hi : i < 81 := by
      rw [readBack, List.length_map, List.length_range] at h1
      exact h1
    simp only [readBack, List.getElem_map, List.getElem_range]
    rw [gridGet, dif_pos (by omega : i / 9 < 9), dif_pos (by omega : i % 9 < 9)]
    show (l.getD (i / 9 * 9 + i % 9) _) = l[i]
    have he : i / 9 * 9 + i % 9 = i := by omega
    rw [he, List.getD_eq_getElem l _ (by omega)]

/-- C5: for any 81-character puzzle and solution sequences, loading fills
starting_grid and player_grid from the puzzle and solution_grid from the
solution under the flat-index map i to (i / 9, i % 9); immediately after
the load the starting and player grids are identical, and reading each
grid back in row-major order reconstructs the original flat sequences
exactly. -/
theorem c5_load_roundtrip (s : Sudoku) (puzzle solution : List Char)
    (hp : puzzle.length = 81) (hs : solution.length = 81) :
    (s.loadGrids puzzle solution).starting_grid = (s.loadGrids puzzle solution).player_grid ∧
    readBack (s.loadGrids puzzle solution).starting_grid = puzzle ∧
    readBack (s.loadGrids puzzle solution).player_grid = puzzle ∧
    readBack (s.loadGrids puzzle solution).solution_grid = solution := by
  refine ⟨?_, ?_, ?_, ?_⟩
  · funext r c
    show puzzle.getD (r.val * 9 + c.val) (s.starting_grid r c) =
      puzzle.getD (r.val * 9 + c.val) (s.player_grid r c)
    have hidx : r.val * 9 + c.val < puzzle.length := by
      have hr := r.isLt
      have hc := c.isLt
      omega
    rw [List.getD_eq_getElem puzzle _ hidx, List.getD_eq_getElem puzzle _ hidx]
  · exact readBack_loadGrid puzzle s.starting_grid hp
  · exact readBack_loadGrid puzzle s.player_grid hp
  · exact readBack_loadGrid solution s.solution_grid hs

/-- Witness for C5 at a concrete input: loading the 81-character test
puzzle and solution into a fresh Sudoku. -/
theorem c5_load_roundtrip_witness :
    ((Sudoku.new "John" 2).loadGrids testPuzzle testSolution).starting_grid =
      ((Sudoku.new "John" 2).loadGrids testPuzzle testSolution).player_grid ∧
    readBack ((Sudoku.new "John" 2).loadGrids testPuzzle testSolution).starting_grid = testPuzzle ∧
    readBack ((Sudoku.new "John" 2).loadGrids testPuzzle testSolution).player_grid = testPuzzle ∧
    readBack ((Sudoku.new "John" 2).loadGrids testPuzzle testSolution).solution_grid = testSolution :=
  c5_load_roundtrip (Sudoku.new "John" 2) testPuzzle testSolution (by decide) (by decide)

/-- C6: code behaviour at the failing inputs.  An unreadable puzzle file
(unwrap at main.rs line 59) and an unparsable one (expect at line 62) both
abort the process rather than surfacing an error, and an empty puzzles
vector is silently swallowed: Puzzle::new prints to stdout and returns a
pair of empty strings, so the session proceeds instead of staying on the
difficulty screen. -/
theorem c6_load_failure_behaviour :
    Puzzle.new none 0 = PuzzleNewResult.panic ∧
    Puzzle.new (some none) 0 = PuzzleNewResult.panic ∧
    Puzzle.new (some (some [])) 0 = PuzzleNewResult.ok { puzzle := "", solution := "" } :=
  ⟨rfl, rfl, rfl⟩

/-- C10: with an empty puzzle collection for the chosen difficulty,
Puzzle::new yields empty puzzle and solution strings, get_puzzle leaves
all three grids entirely empty, and since the all-empty player grid equals
the all-empty solution grid the phase dispatch lands on the win screen
instead of surfacing an error. -/
theorem c10_empty_collection_wins :
    Puzzle.new (some (some [])) 0 = PuzzleNewResult.ok { puzzle := "", solution := "" } ∧
    Sudoku.get_puzzle { Sudoku.new "John" 2 with difficulty := "Beginner" } (some (some [])) 0 =
      some c10State ∧
    (∀ r c : Fin 9, c10State.starting_grid r c = '.' ∧ c10State.player_grid r c = '.' ∧
      c10State.solution_grid r c = '.') ∧
    phase c10State = Phase.won :=
  ⟨rfl, rfl, by decide, by decide⟩

lemma f32Score_eq_round : ∀ c : Fin 82,
    f32Score c.val = (200 * c.val + 81) / 162 ∧ f32Score c.val ≤ 100 := by
  decide

lemma round_formula (c : Nat) :
    round ((100 * (c : ℚ)) / 81) = ((200 * c + 81) / 162 : ℕ) := by
  rw [round_eq]
  have h : (100 * (c : ℚ)) / 81 + 1 / 2 = ((200 * c + 81 : ℕ) : ℚ) / ((162 : ℕ) : ℚ) := by
    push_cast
    ring
  rw [h, ← Int.natCast_floor_eq_floor (by positivity), Nat.floor_div_eq_div]

/-- C7: for a session on the lose screen the reported score equals
round (100 * correctCells / 81) where correctCells counts the positions at
which the player grid equals the solution grid, and the result lies
between 0 and 100; the f32 computation of the source (two roundings and a
half-away-from-zero round) agrees with the exact rational rounding at
every possible count. -/
theorem c7_lose_score (s : Sudoku) (_h : phase s = Phase.lost) :
    (s.lose_screen : ℤ) = round ((100 * (correctCount s : ℚ)) / 81) ∧
    s.lose_screen ≤ 100 := by
  have hcard : (Finset.univ : Finset (Fin 9 × Fin 9)).card = 81 := by simp
  have hc : correctCount s ≤ 81 :=
    le_trans (Finset.card_filter_le _ _) (le_of_eq hcard)
  obtain ⟨h1, h2⟩ := f32Score_eq_round ⟨correctCount s, by omega⟩
  refine ⟨?_, h2⟩
  rw [Sudoku.lose_screen, round_formula]
  exact_mod_cast h1

/-- Witness for C7 at a concrete input: the loaded test game lost with
three strikes. -/
theorem c7_lose_score_witness :
    (c7State.lose_screen : ℤ) = round ((100 * (correctCount c7State : ℚ)) / 81) ∧
    c7State.lose_screen ≤ 100 :=
  c7_lose_score c7State (by decide)

/-- C8: freezing the clock is idempotent.  From a running, not yet
game-over state (time_elapsed still 0, as it is never written during
play), the first win_screen call captures exactly the currently displayed
elapsed value as the permanent duration and marks the game over; every
later win_screen call at any instant leaves the state unchanged and
displays that first captured value. -/
theorem c8_freeze_idempotent (s : Sudoku) (t now1 : Nat)
    (hg : s.game_over = false) (ht : s.timer_start = some t) (he : s.time_elapsed = 0) :
    (Sudoku.win_screen now1 s).2 = playingElapsed now1 s ∧
    ((Sudoku.win_screen now1 s).1).game_over = true ∧
    (∀ now2, Sudoku.win_screen now2 (Sudoku.win_screen now1 s).1 =
      ((Sudoku.win_screen now1 s).1, (Sudoku.win_screen now1 s).2)) := by
  refine ⟨?_, ?_, ?_⟩
  · simp [Sudoku.win_screen, playingElapsed, hg, ht, he]
  · simp [Sudoku.win_screen, hg]
  · intro now2
    simp [Sudoku.win_screen, hg, ht]

/-- Witness for C8 at a concrete input: a running game started at instant
5, frozen at instant 105. -/
theorem c8_freeze_idempotent_witness :
    (Sudoku.win_screen 105 { Sudoku.new "John" 2 with timer_start := some 5 }).2 =
      playingElapsed 105 { Sudoku.new "John" 2 with timer_start := some 5 } ∧
    ((Sudoku.win_screen 105 { Sudoku.new "John" 2 with timer_start := some 5 }).1).game_over = true ∧
    (∀ now2, Sudoku.win_screen now2
        (Sudoku.win_screen 105 { Sudoku.new "John" 2 with timer_start := some 5 }).1 =
      ((Sudoku.win_screen 105 { Sudoku.new "John" 2 with timer_start := some 5 }).1,
        (Sudoku.win_screen 105 { Sudoku.new "John" 2 with timer_start := some 5 }).2)) :=
  c8_freeze_idempotent { Sudoku.new "John" 2 with timer_start := some 5 } 5 105 rfl rfl rfl

/-- C9 counterexample: cell (0, 3) lies in the top-middle box (the
checkerboard condition holds) and is non-empty, yet the white box styling
is not applied to it: the same-value highlight branch fires first (the
cell is itself the selected cell), so the fill is rgb(200, 200, 255), not
white. -/
theorem c9_highlight_preempts_white :
    checkerboard 0 3 ∧ c9State.player_grid 0 3 ≠ '.' ∧
    nonEmptyCellFill c9State 0 3 = some (200, 200, 255) := by
  decide

lemma checkerboard_iff_boxes :
    ∀ rc : Fin 9 × Fin 9, checkerboard rc.1.val rc.2.val ↔ middleEdgeBox rc.1.val rc.2.val := by
  decide

/-- C9 amended: the checkerboard condition of the source coincides with
the middle-edge-box predicate (box-row or box-column index 1, center box
excluded) on every cell, and one predicate governs both branches: an empty
cell is filled white exactly when the condition holds, and a non-empty
cell is filled white exactly when the condition holds and the same-value
highlight does not preempt it. -/
theorem c9_checkerboard_rule (s : Sudoku) (row col : Fin 9) :
    (checkerboard row.val col.val ↔ middleEdgeBox row.val col.val) ∧
    (emptyCellFill row col = some (255, 255, 255) ↔ checkerboard row.val col.val) ∧
    (nonEmptyCellFill s row col = some (255, 255, 255) ↔
      (¬ sameValueHighlight s row col ∧ checkerboard row.val col.val)) := by
  refine ⟨checkerboard_iff_boxes (row, col), ?_, ?_⟩
  · rw [emptyCellFill]
    split_ifs with h <;> simp [h]
  · rw [nonEmptyCellFill]
    split_ifs with h1 h2
    · simp [h1]
    · simp [h1, h2]
    · simp [h1, h2]
